import Mathlib

/-!
Shallow embedding of `src/index.ts` of `stacc/changeset-formatter`.

The TypeScript module exports two async changelog functions built around a
summary-annotation extractor (two `String.replace` calls with anchored,
case-insensitive, multiline regexes), a release-line renderer, a credits
composer, and module-level mutable state (`allAuthors`, `patchChanges`,
`hasAddedCredits`).  The embedding models:
* strings as Lean `String`/`List Char` (the inputs of interest are ASCII;
  JavaScript's UTF-16 code-unit string order and Lean's code-point order
  agree on them);
* the two regexes by direct deterministic matchers (the patterns contain no
  alternation that requires backtracking beyond the one-step `#?` fallback,
  which is implemented explicitly);
* `Number(<digits>)` as `Nat` (exact for the digit strings below 2^53);
* the host API (`@changesets/get-github-info`) as an explicit oracle record,
  a rejected promise being `Except.error`;
* the module-level mutable state by explicit state passing, and
  `console.warn`/API invocations by an explicit trace, so that "logged" and
  "no API call happened" are provable statements;
* JavaScript truthiness of the optional strings and numbers involved
  (`undefined`/`null`/`""`/`0` are falsy) by explicit helper functions.
-/

/-- Characters matched by JavaScript's regex `\s` class (also the characters
removed by `String.prototype.trim`/`trimEnd`). -/
def jsWs (c : Char) : Bool :=
  c.val = 9 || c.val = 10 || c.val = 11 || c.val = 12 || c.val = 13 ||
  c.val = 32 || c.val = 160 || c.val = 0x1680 ||
  (0x2000 ≤ c.val && c.val ≤ 0x200a) ||
  c.val = 0x2028 || c.val = 0x2029 || c.val = 0x202f || c.val = 0x205f ||
  c.val = 0x3000 || c.val = 0xfeff

/-- JavaScript line terminators: positions right after one of these are
`^` anchor points under the `m` regex flag. -/
def isLineTerm (c : Char) : Bool :=
  c.val = 10 || c.val = 13 || c.val = 0x2028 || c.val = 0x2029

/-- Case-insensitive literal matcher: consumes `lit` (given lowercase) from
the head of the input, returning the rest on success. -/
def ciLit : List Char → List Char → Option (List Char)
  | [], l => some l
  | _ :: _, [] => none
  | c :: cs, x :: xs => if x.toLower = c then ciLit cs xs else none

/-- Matcher for the keyword group of `/^\s*(?:pr|pull|pull\s+request):/`,
with the regex's ordered alternation.  Input starts right after the
leading `\s*`; returns the rest after the colon. -/
def matchKw (l : List Char) : Option (List Char) :=
  match ciLit ['p', 'r', ':'] l with
  | some r => some r
  | none =>
    match ciLit ['p', 'u', 'l', 'l', ':'] l with
    | some r => some r
    | none =>
      match ciLit ['p', 'u', 'l', 'l'] l with
      | some r1 =>
        match r1 with
        | c :: _ =>
          if jsWs c then
            ciLit ['r', 'e', 'q', 'u', 'e', 's', 't', ':'] (r1.dropWhile jsWs)
          else none
        | [] => none
      | none => none

/-- Matcher for `/^\s*(?:pr|pull|pull\s+request):\s*#?(\d+)/i` at an anchor
position: returns the captured digit run and the input remaining after the
match.  The `#?` fallback of the regex is explicit: a `#` not followed by a
digit fails, because `\d+` cannot match `#` either. -/
def matchPR (l : List Char) : Option (List Char × List Char) :=
  match matchKw (l.dropWhile jsWs) with
  | none => none
  | some l2 =>
    let l3 := l2.dropWhile jsWs
    match l3 with
    | '#' :: l4 =>
      let ds := l4.takeWhile Char.isDigit
      if ds.isEmpty then none else some (ds, l4.dropWhile Char.isDigit)
    | _ =>
      let ds := l3.takeWhile Char.isDigit
      if ds.isEmpty then none else some (ds, l3.dropWhile Char.isDigit)

/-- Matcher for `/^\s*commit:\s*([^\s]+)/i` at an anchor position: returns
the captured non-whitespace token and the remaining input. -/
def matchCommit (l : List Char) : Option (List Char × List Char) :=
  match ciLit ['c', 'o', 'm', 'm', 'i', 't', ':'] (l.dropWhile jsWs) with
  | none => none
  | some l2 =>
    let l3 := l2.dropWhile jsWs
    let tok := l3.takeWhile (fun c => !jsWs c)
    if tok.isEmpty then none
    else some (tok, l3.dropWhile (fun c => !jsWs c))

/-- Splits off the (inclusive) prefix up to the first line terminator, the
remainder starting at the next `^` anchor point. -/
def splitAfterLineTerm : List Char → Option (List Char × List Char)
  | [] => none
  | c :: rest =>
    if isLineTerm c then some ([c], rest)
    else
      match splitAfterLineTerm rest with
      | some (p, r) => some (c :: p, r)
      | none => none

/-- Scans the string for the first `^`-anchored match of `m` (anchor points
are position 0 and positions right after a line terminator, tried left to
right, as JavaScript does for a non-global multiline regex).  Returns the
unmatched prefix, the captured value, and the suffix after the match. -/
def scanAnchors (m : List Char → Option (α × List Char)) :
    Nat → List Char → Option (List Char × α × List Char)
  | 0, _ => none
  | fuel + 1, l =>
    match m l with
    | some (a, rest) => some ([], a, rest)
    | none =>
      match splitAfterLineTerm l with
      | none => none
      | some (pre, rest) =>
        match scanAnchors m fuel rest with
        | some (p, a, r) => some (pre ++ p, a, r)
        | none => none

/-- First anchored match of `m`, replaced by the empty string (the callback
in the source returns `""`): yields the captured value and the new string. -/
def replaceFirst (m : List Char → Option (α × List Char)) (l : List Char) :
    Option (α × List Char) :=
  match scanAnchors m (l.length + 1) l with
  | some (pre, a, suf) => some (a, pre ++ suf)
  | none => none

/-- Numeric value of a captured digit run; models `Number(<digits>)`, which
is never `NaN` on a nonempty digit run (so the source's `isNaN` guard always
passes). -/
def digitsToNat (l : List Char) : Nat :=
  l.foldl (fun acc c => acc * 10 + (c.toNat - 48)) 0

/-- Models `String.prototype.trim`. -/
def jsTrim (l : List Char) : List Char :=
  ((l.dropWhile jsWs).reverse.dropWhile jsWs).reverse

/-- Models `String.prototype.trimRight` (alias of `trimEnd`). -/
def jsTrimEnd (l : List Char) : List Char :=
  (l.reverse.dropWhile jsWs).reverse

/-- Models `String.prototype.split("\n")` (always at least one piece). -/
def splitOnNl : List Char → List (List Char)
  | [] => [[]]
  | c :: rest =>
    if c = '\n' then [] :: splitOnNl rest
    else
      match splitOnNl rest with
      | h :: t => (c :: h) :: t
      | [] => [[c]]

/-- Result of the summary-annotation extraction in `getReleaseLine`:
the two directive overrides and the processed body lines
(`replacedChangelog.trim().split("\n").map(trimRight)`). -/
structure Extracted where
  pr : Option Nat
  commitDir : Option String
  body : List String
deriving DecidableEq, Repr

/-- Extraction pipeline of `getReleaseLine` (source lines 44-59): replace
the first `pr|pull|pull request` directive match with `""`, then the first
`commit` directive match, then trim and split into trimmed-right lines. -/
def processSummary (s : String) : Extracted :=
  let cs0 := s.data
  let step1 :=
    match replaceFirst matchPR cs0 with
    | some (ds, l') => (some (digitsToNat ds), l')
    | none => (none, cs0)
  let step2 :=
    match replaceFirst matchCommit step1.2 with
    | some (tok, l') => (some (String.mk tok), l')
    | none => (none, step1.2)
  ⟨step1.1, step2.1, ((splitOnNl (jsTrim step2.2)).map jsTrimEnd).map String.mk⟩

/-- The `links` object resolved by `@changesets/get-github-info`; each field
is a rendered markdown link or `null`. -/
structure Links where
  commit : Option String
  pull : Option String
  user : Option String
deriving DecidableEq, Repr

/-- Resolved host information used by the source: the `links` object and the
`user` login (other fields of the API response are never read). -/
structure GithubInfo where
  links : Links
  user : Option String
deriving DecidableEq, Repr

/-- Host API oracle (`getInfoFromPullRequest` and `getInfo`); a rejected
promise is `Except.error` with the error message. -/
structure HostAPI where
  getInfoFromPullRequest : String → Nat → Except String GithubInfo
  getInfo : String → String → Except String GithubInfo

/-- Input changeset: `NewChangesetWithCommit` plus the optional `PR` field
the source adds in `ChangesetWithPR`. -/
structure Changeset where
  summary : String
  commit : Option String
  id : String
  PR : Option Nat
deriving DecidableEq, Repr

/-- The options record: only `repo` and `isLast` are read by the source. -/
structure Options where
  repo : Option String
  isLast : Bool
deriving DecidableEq, Repr

/-- One entry of `dependenciesUpdated`. -/
structure Dependency where
  name : String
  newVersion : String
deriving DecidableEq, Repr

/-- The module-level mutable state of the source: `allAuthors` (a `Set`,
modelled as an insertion-ordered duplicate-free list), `patchChanges`, and
the `hasAddedCredits` flag. -/
structure ChangelogState where
  allAuthors : List String
  patchChanges : List String
  hasAddedCredits : Bool
deriving DecidableEq, Repr

/-- The state produced by `resetChangelogState` (and the initial module
state). -/
def resetChangelogState : ChangelogState := ⟨[], [], false⟩

/-- An observable host-API invocation. -/
inductive APICall where
  | pullReq (repo : String) (pull : Nat)
  | commitInfo (repo : String) (commit : String)
deriving DecidableEq, Repr

/-- Observable effects of one call: host-API invocations and
`console.warn` messages. -/
structure Trace where
  calls : List APICall
  warnings : List String
deriving DecidableEq, Repr

def emptyTrace : Trace := ⟨[], []⟩

def appendTrace (a b : Trace) : Trace := ⟨a.calls ++ b.calls, a.warnings ++ b.warnings⟩

/-- JavaScript truthiness of an optional string (`undefined`/`null` and the
empty string are falsy). -/
def jsTruthyStr : Option String → Bool
  | none => false
  | some s => decide (s ≠ "")

/-- Models `a || b` on optional strings. -/
def jsOrStr (a b : Option String) : Option String :=
  if jsTruthyStr a then a else b

/-- Models `Set.prototype.add`: insertion order, no duplicates. -/
def setAdd (l : List String) (x : String) : List String :=
  if x ∈ l then l else l ++ [x]

/-- Models `if (user) { allAuthors.add(user); }`. -/
def addUser (st : ChangelogState) (u : Option String) : ChangelogState :=
  match u with
  | some s => if s ≠ "" then { st with allAuthors := setAdd st.allAuthors s } else st
  | none => st

/-- Strict lexicographic order on character lists, comparing code units as
JavaScript's `<` on strings does (identical to code-point order on the
ASCII handles involved). -/
def listLex : List Char → List Char → Bool
  | [], [] => false
  | [], _ :: _ => true
  | _ :: _, [] => false
  | a :: as, b :: bs =>
    if a.val < b.val then true
    else if b.val < a.val then false
    else listLex as bs

/-- Non-strict variant used by the insertion sort. -/
def strLe (a b : String) : Bool := !(listLex b.data a.data)

def insertSorted (x : String) : List String → List String
  | [] => [x]
  | y :: ys => if strLe x y then x :: y :: ys else y :: insertSorted x ys

/-- Models `Array.from(set).sort()` (default lexicographic string sort; the
set holds no duplicates, so stability does not matter). -/
def sortStrings : List String → List String
  | [] => []
  | x :: xs => insertSorted x (sortStrings xs)

/-- The sentence of the credits block (source lines 199-208): one, two, or
Oxford-comma list of `@`-prefixed handles. -/
def creditsSentence : List String → String
  | [a] => "Huge thanks to " ++ a ++ " for helping!"
  | [a, b] => "Huge thanks to " ++ a ++ " and " ++ b ++ " for helping!"
  | l =>
    "Huge thanks to " ++ String.intercalate ", " l.dropLast ++ ", and " ++
      l.getLastD "" ++ " for helping!"

/-- The credits composer `getCreditsSection` (source lines 176-213): empty
when no authors or when `hasAddedCredits` is already set; otherwise renders
the block and sets the flag. -/
def getCreditsSection (st : ChangelogState) : String × ChangelogState :=
  if st.allAuthors.isEmpty then ("", st)
  else if st.hasAddedCredits then ("", st)
  else
    let authorLinks := (sortStrings st.allAuthors).map (fun a => "@" ++ a)
    if authorLinks.isEmpty then ("", st)
    else
      ("\n\n**Credits**\n" ++ creditsSentence authorLinks,
       { st with hasAddedCredits := true })

/-- The `links` value of the catch branch: `{ commit: null, pull: null }`. -/
def nullLinks : Links := ⟨none, none, none⟩

/-- The warning printed by the catch branch of `getReleaseLine`. -/
def warnMsg (e : String) : String := "Error getting GitHub info: " ++ e

/-- The configuration error thrown when `repo` is missing. -/
def configErrorMsg : String :=
  "Please provide a repo to this changelog generator like this:\n\x22changelog\x22: [\x22./changelog-format.js\x22, \x7b \x22repo\x22: \x22org/repo\x22 \x7d]"

/-- The resolution IIFE of `getReleaseLine` (source lines 62-94): resolve by
pull request when a `pr` directive was extracted, else by
`commitFromSummary || changeset.commit` when truthy, else no info; a
rejection is caught, warned about, and degraded to null links. -/
def resolveInfo (api : HostAPI) (repo : String) (ex : Extracted)
    (csCommit : Option String) (st : ChangelogState) :
    GithubInfo × ChangelogState × Trace :=
  match ex.pr with
  | some n =>
    match api.getInfoFromPullRequest repo n with
    | .ok i => (⟨i.links, i.user⟩, addUser st i.user, ⟨[.pullReq repo n], []⟩)
    | .error e => (⟨nullLinks, none⟩, st, ⟨[.pullReq repo n], [warnMsg e]⟩)
  | none =>
    let ctf := jsOrStr ex.commitDir csCommit
    if jsTruthyStr ctf then
      let c := ctf.getD ""
      match api.getInfo repo c with
      | .ok i => (⟨i.links, i.user⟩, addUser st i.user, ⟨[.commitInfo repo c], []⟩)
      | .error e => (⟨nullLinks, none⟩, st, ⟨[.commitInfo repo c], [warnMsg e]⟩)
    else (⟨nullLinks, none⟩, st, emptyTrace)

/-- Models `links.pull.match(/#(\d+)/)?.[1]`: the digit run after the first
`#` that is followed by at least one digit. -/
def hashDigits : List Char → Option String
  | [] => none
  | c :: rest =>
    if c = '#' then
      let ds := rest.takeWhile Char.isDigit
      if ds.isEmpty then hashDigits rest else some (String.mk ds)
    else hashDigits rest

/-- The `prNumber` chain (source lines 97-102):
`prFromSummary || changeset.PR || (links?.pull ? match : undefined)`.
JavaScript truthiness is folded into the construction sites: a number is
wrapped only when nonzero, and a matched digit run is nonempty (hence a
truthy string — note `"0"` is truthy), so the rendered check
`if (prNumber)` below is exactly `Option.isSome` here. -/
def computePrNumber (exPr : Option Nat) (csPR : Option Nat)
    (pullLink : Option String) : Option String :=
  let fromLink : Option String :=
    match pullLink with
    | some p => if p ≠ "" then hashDigits p.data else none
    | none => none
  let fromPRField : Option String :=
    match csPR with
    | some m => if m ≠ 0 then some (toString m) else fromLink
    | none => fromLink
  match exPr with
  | some n => if n ≠ 0 then some (toString n) else fromPRField
  | none => fromPRField

/-- Assembly of the release line (source lines 105-117): bullet with the
headline, then the PR parenthetical if a PR number is available, else the
resolved commit link in parentheses if truthy, then the continuation lines
each prefixed by two spaces. -/
def renderLine (repo : String) (body : List String) (prNumber : Option String)
    (commitLink : Option String) : String :=
  let firstLine := body.headD ""
  let futureLines := body.tail
  let r1 := "- " ++ firstLine
  let r2 :=
    match prNumber with
    | some p =>
      r1 ++ " ([#" ++ p ++ "](https://github.com/" ++ repo ++ "/pull/" ++ p ++ "))"
    | none =>
      if jsTruthyStr commitLink then r1 ++ " (" ++ commitLink.getD "" ++ ")"
      else r1
  if futureLines.isEmpty then r2
  else r2 ++ "\n" ++ String.intercalate "\n" (futureLines.map (fun l => "  " ++ l))

/-- The inner `getReleaseLine` (source lines 26-118).  The settled value of
the returned promise is the `Except`; the state and trace are returned
alongside. -/
def getReleaseLine (api : HostAPI) (changeset : Changeset) (type : String)
    (options : Option Options) (st : ChangelogState) :
    Except String String × ChangelogState × Trace :=
  match options with
  | none => (.error configErrorMsg, st, emptyTrace)
  | some opts =>
    if jsTruthyStr opts.repo then
      let repo := opts.repo.getD ""
      let ex := processSummary changeset.summary
      let resolved := resolveInfo api repo ex changeset.commit st
      let info := resolved.1
      let prNumber := computePrNumber ex.pr changeset.PR info.links.pull
      (.ok (renderLine repo ex.body prNumber info.links.commit),
       resolved.2.1, resolved.2.2)
    else (.error configErrorMsg, st, emptyTrace)

/-- The warning printed by the catch branch of `getDependencyReleaseLine`. -/
def depWarnMsg (e : String) : String := "Error getting commit info: " ++ e

/-- The `Promise.all(changesets.map(...))` of `getDependencyReleaseLine`
(source lines 136-156), modelled sequentially in input order: the result
list is in input order as `Promise.all` guarantees, and `allAuthors` is a
set whose rendering is sorted, so completion order is unobservable. -/
def collectLinks (api : HostAPI) (repo : String) :
    List Changeset → ChangelogState → List (Option String) × ChangelogState × Trace
  | [], st => ([], st, emptyTrace)
  | cs :: rest, st =>
    let step :=
      if jsTruthyStr cs.commit then
        let c := cs.commit.getD ""
        match api.getInfo repo c with
        | .ok i => ((i.links.commit : Option String), addUser st i.user,
                    (⟨[.commitInfo repo c], []⟩ : Trace))
        | .error e => (none, st, ⟨[.commitInfo repo c], [depWarnMsg e]⟩)
      else (none, st, emptyTrace)
    let tail := collectLinks api repo rest step.2.1
    (step.1 :: tail.1, tail.2.1, appendTrace step.2.2 tail.2.2)

/-- Models `.filter(Boolean)` on the collected links: drops `null` and the
empty string. -/
def filterTruthy (l : List (Option String)) : List String :=
  l.filterMap (fun o =>
    match o with
    | some s => if s ≠ "" then some s else none
    | none => none)

/-- The inner `getDependencyReleaseLine` (source lines 120-173). -/
def getDependencyReleaseLine (api : HostAPI) (changesets : List Changeset)
    (dependenciesUpdated : List Dependency) (options : Option Options)
    (st : ChangelogState) : Except String String × ChangelogState × Trace :=
  match options with
  | none => (.error configErrorMsg, st, emptyTrace)
  | some opts =>
    if jsTruthyStr opts.repo then
      let repo := opts.repo.getD ""
      if dependenciesUpdated.isEmpty then (.ok "", st, emptyTrace)
      else
        let collected := collectLinks api repo changesets st
        let filteredLinks := filterTruthy collected.1
        let changesetLink :=
          if filteredLinks.isEmpty then "Updated dependencies:"
          else "Updated dependencies [" ++ String.intercalate ", " filteredLinks ++ "]:"
        let updatedDependenciesList :=
          dependenciesUpdated.map (fun d => "  - " ++ d.name ++ "@" ++ d.newVersion)
        (.ok (String.intercalate "\n" (changesetLink :: updatedDependenciesList)),
         collected.2.1, collected.2.2)
    else (.error configErrorMsg, st, emptyTrace)

/-- Reads `opts?.isLast` with JavaScript truthiness. -/
def optIsLast : Option Options → Bool
  | none => false
  | some o => o.isLast

/-- The exported adapter `wrappedGetReleaseLine` (source lines 216-245):
resets the module state whenever `opts?.isLast` is falsy, runs the inner
function, records patch summaries, and on the last call with authors and an
unset flag appends the credits section and resets the state. -/
def wrappedGetReleaseLine (api : HostAPI) (changeset : Changeset)
    (type : String) (opts : Option Options) (st : ChangelogState) :
    Except String String × ChangelogState × Trace :=
  let st0 := if optIsLast opts then st else resetChangelogState
  match getReleaseLine api changeset type opts st0 with
  | (.error e, st1, tr) => (.error e, st1, tr)
  | (.ok result, st1, tr) =>
    let st2 :=
      if type = "patch" then
        { st1 with patchChanges := setAdd st1.patchChanges changeset.summary }
      else st1
    if optIsLast opts && !st2.allAuthors.isEmpty && !st2.hasAddedCredits then
      (.ok (result ++ (getCreditsSection st2).1), resetChangelogState, tr)
    else (.ok result, st2, tr)

/-- The exported adapter `wrappedGetDependencyReleaseLine` (source lines
247-275), with the same reset/credits lifecycle around the inner call. -/
def wrappedGetDependencyReleaseLine (api : HostAPI) (changesets : List Changeset)
    (dependencies : List Dependency) (opts : Option Options)
    (st : ChangelogState) : Except String String × ChangelogState × Trace :=
  let st0 := if optIsLast opts then st else resetChangelogState
  match getDependencyReleaseLine api changesets dependencies opts st0 with
  | (.error e, st1, tr) => (.error e, st1, tr)
  | (.ok result, st1, tr) =>
    if optIsLast opts && !st1.allAuthors.isEmpty && !st1.hasAddedCredits then
      (.ok (result ++ (getCreditsSection st1).1), resetChangelogState, tr)
    else (.ok result, st1, tr)

instance [DecidableEq ε] [DecidableEq α] : DecidableEq (Except ε α) := fun x y =>
  match x, y with
  | .error a, .error b =>
    if h : a = b then isTrue (congrArg Except.error h)
    else isFalse (fun he => h (Except.error.inj he))
  | .error _, .ok _ => isFalse (fun he => Except.noConfusion he)
  | .ok _, .error _ => isFalse (fun he => Except.noConfusion he)
  | .ok a, .ok b =>
    if h : a = b then isTrue (congrArg Except.ok h)
    else isFalse (fun he => h (Except.ok.inj he))

/-- Outcome of invoking a JavaScript function from the caller's point of
view: either a synchronous exception escapes the call, or a promise is
returned whose settlement is the `Except`. -/
inductive JSOutcome (α : Type) where
  | thrown (e : String)
  | promise (r : Except String α)
deriving DecidableEq, Repr

/-- Tests for the synchronous-exception outcome. -/
def JSOutcome.isThrown : JSOutcome α → Bool
  | .thrown _ => true
  | .promise _ => false

/-- Invoking `getReleaseLine`.  Both exported functions are declared
`async`, so in JavaScript a `throw` in the body rejects the returned
promise and the call itself never raises synchronously. -/
def callGetReleaseLine (api : HostAPI) (changeset : Changeset) (type : String)
    (options : Option Options) (st : ChangelogState) : JSOutcome String :=
  .promise (getReleaseLine api changeset type options st).1

/-- Invoking `getDependencyReleaseLine`; `async` as well, so the
configuration error surfaces as a rejected promise. -/
def callGetDependencyReleaseLine (api : HostAPI) (changesets : List Changeset)
    (dependenciesUpdated : List Dependency) (options : Option Options)
    (st : ChangelogState) : JSOutcome String :=
  .promise (getDependencyReleaseLine api changesets dependenciesUpdated options st).1

/-- Decides whether the first list is a prefix of the second. -/
def listPrefixEq : List Char → List Char → Bool
  | [], _ => true
  | _ :: _, [] => false
  | c :: cs, x :: xs => c = x && listPrefixEq cs xs

/-- Decides whether `sub` occurs contiguously in `l`. -/
def containsSub : List Char → List Char → Bool
  | [], sub => sub.isEmpty
  | l@(_ :: rest), sub => listPrefixEq sub l || containsSub rest sub

/-- Substring test (used to state that a rendered line does or does not
contain a given fragment). -/
def strContains (s sub : String) : Bool :=
  containsSub s.data sub.data

/-- Host API that always rejects (both lookups). -/
def failAPI (e₁ e₂ : String) : HostAPI :=
  ⟨fun _ _ => .error e₁, fun _ _ => .error e₂⟩

/-- Modelled from the test mock of this repository: resolves every pull
number 1613 and every commit to user `Gawdfrey` with the canonical link
set of `stacc/changeset-formatter`. -/
def apiMock : HostAPI where
  getInfoFromPullRequest := fun _ pull =>
    if pull = 1613 then
      .ok ⟨⟨some "[`a085003`](https://github.com/stacc/changeset-formatter/commit/a085003)",
            some "[#1613](https://github.com/stacc/changeset-formatter/pull/1613)",
            some "[@Gawdfrey](https://github.com/Gawdfrey)"⟩, some "Gawdfrey"⟩
    else .error "Unexpected pull request"
  getInfo := fun repo c =>
    .ok ⟨⟨some ("[`" ++ c ++ "`](https://github.com/" ++ repo ++ "/commit/" ++ c ++ ")"),
          some "[#1613](https://github.com/stacc/changeset-formatter/pull/1613)",
          some "[@Gawdfrey](https://github.com/Gawdfrey)"⟩, some "Gawdfrey"⟩


/-- Predicate of claim C7's precondition: the options object is `null` or
has no `repo` property. -/
def hasNoRepo : Option Options → Bool
  | none => true
  | some o =>
    match o.repo with
    | none => true
    | some _ => false

/-- The release line as rendered when the resolution produced no host
information (null links): no commit reference at all, and a PR parenthetical
only from the `pr` directive or the changeset's own `PR` field. -/
def renderNoInfo (repo summary : String) (csPR : Option Nat) : String :=
  let ex := processSummary summary
  renderLine repo ex.body (computePrNumber ex.pr csPR none) none

/-- Trace of `getReleaseLine` when every host-API call rejects: exactly the
one attempted call, and the corresponding caught-and-warned message. -/
def failTrace (e₁ e₂ repo : String) (cs : Changeset) : Trace :=
  match (processSummary cs.summary).pr with
  | some n => ⟨[.pullReq repo n], [warnMsg e₁]⟩
  | none =>
    let ctf := jsOrStr (processSummary cs.summary).commitDir cs.commit
    if jsTruthyStr ctf then ⟨[.commitInfo repo (ctf.getD "")], [warnMsg e₂]⟩
    else emptyTrace

/-- Stated after the spec of §4.4: the commit links that resolve for the
changesets with a (truthy) commit, in input order, failures and absent
links dropped. -/
def resolvedLinksSpec (api : HostAPI) (repo : String)
    (changesets : List Changeset) : List String :=
  changesets.filterMap (fun cs =>
    if jsTruthyStr cs.commit then
      match api.getInfo repo (cs.commit.getD "") with
      | .ok i =>
        match i.links.commit with
        | some s => if s ≠ "" then some s else none
        | none => none
      | .error _ => none
    else none)

/-- Stated after the spec of §4.4: one logged warning per changeset whose
host-API lookup fails, in input order. -/
def failWarningsSpec (api : HostAPI) (repo : String)
    (changesets : List Changeset) : List String :=
  changesets.filterMap (fun cs =>
    if jsTruthyStr cs.commit then
      match api.getInfo repo (cs.commit.getD "") with
      | .ok _ => none
      | .error e => some (depWarnMsg e)
    else none)

/-- Stated after the spec of §4.4 / claim C8: header
`Updated dependencies [<links>]:` (comma-joined) or `Updated dependencies:`
when none resolved, then one two-space-indented `- <name>@<newVersion>`
line per dependency in input order, newline-joined. -/
def depLineSpec (api : HostAPI) (repo : String) (changesets : List Changeset)
    (deps : List Dependency) : String :=
  let links := resolvedLinksSpec api repo changesets
  String.intercalate "\n"
    ((if links.isEmpty then "Updated dependencies:"
      else "Updated dependencies [" ++ String.intercalate ", " links ++ "]:") ::
      deps.map (fun d => "  - " ++ d.name ++ "@" ++ d.newVersion))

/-- Oracle for the C1 scenario: three commits resolving to the three
authors A = `alice`, C = `carol`, B = `bob`. -/
def apiC1 : HostAPI where
  getInfoFromPullRequest := fun _ _ => .error "no pulls"
  getInfo := fun _ c =>
    if c = "c1" then .ok ⟨⟨none, none, none⟩, some "alice"⟩
    else if c = "c2" then .ok ⟨⟨none, none, none⟩, some "carol"⟩
    else if c = "c3" then .ok ⟨⟨none, none, none⟩, some "bob"⟩
    else .error "unknown commit"

/-- First call of the C1 run (`isLast` false, author `alice`). -/
def c1first : Except String String × ChangelogState × Trace :=
  wrappedGetReleaseLine apiC1 ⟨"one", some "c1", "i1", none⟩ "minor"
    (some ⟨some "o/r", false⟩) resetChangelogState

/-- Second call of the C1 run (`isLast` false, author `carol`). -/
def c1second : Except String String × ChangelogState × Trace :=
  wrappedGetReleaseLine apiC1 ⟨"two", some "c2", "i2", none⟩ "minor"
    (some ⟨some "o/r", false⟩) c1first.2.1

/-- Third call of the C1 run (`isLast` true, author `bob`). -/
def c1third : Except String String × ChangelogState × Trace :=
  wrappedGetReleaseLine apiC1 ⟨"three", some "c3", "i3", none⟩ "minor"
    (some ⟨some "o/r", true⟩) c1second.2.1

/-- Oracle for the C4 scenario: two commits resolving to two authors. -/
def apiC4 : HostAPI where
  getInfoFromPullRequest := fun _ _ => .error "no pulls"
  getInfo := fun _ c =>
    if c = "d1" then .ok ⟨⟨none, none, none⟩, some "u1"⟩
    else .ok ⟨⟨none, none, none⟩, some "u2"⟩

/-- First call of the C4 scenario (`isLast` true). -/
def c4first : Except String String × ChangelogState × Trace :=
  wrappedGetReleaseLine apiC4 ⟨"one", some "d1", "i1", none⟩ "minor"
    (some ⟨some "o/r", true⟩) resetChangelogState

/-- Second call of the C4 scenario, again with `isLast` true, in the same
process, on the state left by the first call. -/
def c4second : Except String String × ChangelogState × Trace :=
  wrappedGetReleaseLine apiC4 ⟨"two", some "d2", "i2", none⟩ "minor"
    (some ⟨some "o/r", true⟩) c4first.2.1

/-- Oracle for the C8 witness: commit `good` resolves to link `L1`, every
other commit fails. -/
def apiC8 : HostAPI where
  getInfoFromPullRequest := fun _ _ => .error "no pulls"
  getInfo := fun _ c =>
    if c = "good" then .ok ⟨⟨some "L1", none, none⟩, some "u"⟩
    else .error "down"

theorem addUser_hasAddedCredits (st : ChangelogState) (u : Option String) :
    (addUser st u).hasAddedCredits = st.hasAddedCredits := by
  cases u with
  | none => rfl
  | some s =>
    simp only [addUser]
    split <;> rfl

theorem resolveInfo_hasAddedCredits (api : HostAPI) (repo : String)
    (ex : Extracted) (csCommit : Option String) (st : ChangelogState) :
    ((resolveInfo api repo ex csCommit st).2.1).hasAddedCredits = st.hasAddedCredits := by
  unfold resolveInfo
  cases hpr : ex.pr with
  | some n =>
    cases h : api.getInfoFromPullRequest repo n <;>
      simp [h, addUser_hasAddedCredits]
  | none =>
    simp only
    split
    · cases h : api.getInfo repo ((jsOrStr ex.commitDir csCommit).getD "") <;>
        simp [h, addUser_hasAddedCredits]
    · rfl

theorem getReleaseLine_hasAddedCredits (api : HostAPI) (cs : Changeset)
    (type : String) (opts : Option Options) (st : ChangelogState) :
    ((getReleaseLine api cs type opts st).2.1).hasAddedCredits = st.hasAddedCredits := by
  cases opts with
  | none => rfl
  | some o =>
    simp only [getReleaseLine]
    split
    · exact resolveInfo_hasAddedCredits ..
    · rfl

theorem collectLinks_links (api : HostAPI) (repo : String) (l : List Changeset) :
    ∀ st, filterTruthy (collectLinks api repo l st).1 = resolvedLinksSpec api repo l := by
  induction l with
  | nil => intro st; rfl
  | cons cs rest ih =>
    intro st
    by_cases hc : jsTruthyStr cs.commit
    · cases h : api.getInfo repo (cs.commit.getD "") with
      | ok i =>
        have hih := ih (addUser st i.user)
        simp only [collectLinks, hc, h, if_true, filterTruthy, resolvedLinksSpec,
          List.filterMap_cons] at hih ⊢
        cases hcl : i.links.commit with
        | none => simpa [hcl] using hih
        | some s =>
          by_cases hs : s = ""
          · simpa [hcl, hs] using hih
          · simpa [hcl, hs] using hih
      | error e =>
        have hih := ih st
        simp only [collectLinks, hc, h, if_true, filterTruthy, resolvedLinksSpec,
          List.filterMap_cons] at hih ⊢
        simpa using hih
    · have hc' : jsTruthyStr cs.commit = false := by simpa using hc
      have hih := ih st
      simp only [collectLinks, hc', filterTruthy, resolvedLinksSpec,
        List.filterMap_cons] at hih ⊢
      simpa using hih

theorem collectLinks_warnings (api : HostAPI) (repo : String) (l : List Changeset) :
    ∀ st, ((collectLinks api repo l st).2.2).warnings = failWarningsSpec api repo l := by
  induction l with
  | nil => intro st; rfl
  | cons cs rest ih =>
    intro st
    by_cases hc : jsTruthyStr cs.commit
    · cases h : api.getInfo repo (cs.commit.getD "") with
      | ok i =>
        have hih := ih (addUser st i.user)
        simp only [collectLinks, hc, h, if_true, failWarningsSpec,
          List.filterMap_cons, appendTrace] at hih ⊢
        simpa using hih
      | error e =>
        have hih := ih st
        simp only [collectLinks, hc, h, if_true, failWarningsSpec,
          List.filterMap_cons, appendTrace] at hih ⊢
        simpa using hih
    · have hc' : jsTruthyStr cs.commit = false := by simpa using hc
      have hih := ih st
      simp only [collectLinks, hc', failWarningsSpec,
        List.filterMap_cons, appendTrace] at hih ⊢
      simpa using hih

/-- C7 (amended): whenever the options object is null or has no `repo`
property, both `getReleaseLine` and `getDependencyReleaseLine` return a
promise rejected with the configuration error — an asynchronous rejection,
since both functions are `async`, not a synchronous throw — and no line is
produced. -/
theorem c7_rejected_promise (api : HostAPI) (cs : Changeset) (type : String)
    (changesets : List Changeset) (deps : List Dependency) (opts : Option Options)
    (st : ChangelogState) (h : hasNoRepo opts = true) :
    callGetReleaseLine api cs type opts st = .promise (.error configErrorMsg) ∧
    callGetDependencyReleaseLine api changesets deps opts st =
      .promise (.error configErrorMsg) := by
  cases opts with
  | none => exact ⟨rfl, rfl⟩
  | some o =>
    cases ho : o.repo with
    | none =>
      constructor <;>
        simp [callGetReleaseLine, callGetDependencyReleaseLine,
          getReleaseLine, getDependencyReleaseLine, ho, jsTruthyStr]
    | some s => simp [hasNoRepo, ho] at h

/-- Witness for C7 at `options = null`. -/
theorem c7_rejected_promise_witness :
    hasNoRepo none = true ∧
    (callGetReleaseLine (failAPI "a" "b") ⟨"something", none, "id", none⟩
        "minor" none resetChangelogState = .promise (.error configErrorMsg) ∧
      callGetDependencyReleaseLine (failAPI "a" "b") [] [] none
        resetChangelogState = .promise (.error configErrorMsg)) :=
  ⟨rfl, c7_rejected_promise (failAPI "a" "b") ⟨"something", none, "id", none⟩
    "minor" [] [] none resetChangelogState rfl⟩

/-- Counterexample to C7 as stated: with `options = null` the call's outcome
is a rejected promise, not a synchronous throw (both exported functions are
`async`, so the configuration error surfaces as an async rejection). -/
theorem c7_sync_counterexample :
    callGetReleaseLine (failAPI "a" "b") ⟨"something", none, "id", none⟩
        "minor" none resetChangelogState = .promise (.error configErrorMsg) ∧
    (callGetReleaseLine (failAPI "a" "b") ⟨"something", none, "id", none⟩
        "minor" none resetChangelogState).isThrown = false :=
  ⟨rfl, rfl⟩

/-- C10: with a valid repo and an empty `dependenciesUpdated` list,
`getDependencyReleaseLine` returns the empty string with the state
untouched and an empty trace (no host-API call, no warning), for every
changesets list and every host API. -/
theorem c10_empty_deps (api : HostAPI) (changesets : List Changeset)
    (repo : String) (il : Bool) (st : ChangelogState) (hrepo : repo ≠ "") :
    getDependencyReleaseLine api changesets [] (some ⟨some repo, il⟩) st =
      (.ok "", st, emptyTrace) := by
  have h1 : jsTruthyStr (some repo) = true := by simp [jsTruthyStr, hrepo]
  simp [getDependencyReleaseLine, h1]

/-- Witness for C10 with a nonempty changesets list and a dirty state. -/
theorem c10_empty_deps_witness :
    (("o/r" : String) ≠ "") ∧
    getDependencyReleaseLine (failAPI "a" "b") [⟨"x", some "c", "i", none⟩] []
        (some ⟨some "o/r", true⟩) ⟨["z"], ["p"], true⟩ =
      (.ok "", ⟨["z"], ["p"], true⟩, emptyTrace) :=
  ⟨by decide, c10_empty_deps (failAPI "a" "b") [⟨"x", some "c", "i", none⟩]
    "o/r" true ⟨["z"], ["p"], true⟩ (by decide)⟩

/-- C8: with a repo and a nonempty dependency list, the inner
`getDependencyReleaseLine` resolves to exactly the §4.4 format
(`Updated dependencies [<links>]:` with the resolved links comma-joined, or
`Updated dependencies:` when none resolved, then one `  - <name>@<newVersion>`
line per dependency in input order), failures being dropped with no plain-link
fallback, and one warning is logged per failing lookup. -/
theorem c8_dep_line (api : HostAPI) (changesets : List Changeset)
    (deps : List Dependency) (repo : String) (il : Bool) (st : ChangelogState)
    (hrepo : repo ≠ "") (hdeps : deps ≠ []) :
    (getDependencyReleaseLine api changesets deps (some ⟨some repo, il⟩) st).1 =
      .ok (depLineSpec api repo changesets deps) ∧
    ((getDependencyReleaseLine api changesets deps (some ⟨some repo, il⟩) st).2.2).warnings =
      failWarningsSpec api repo changesets := by
  have h1 : jsTruthyStr (some repo) = true := by simp [jsTruthyStr, hrepo]
  have h2 : deps.isEmpty = false := by
    cases deps with
    | nil => exact absurd rfl hdeps
    | cons d ds => rfl
  constructor
  · simp only [getDependencyReleaseLine, h1, if_true, h2, Bool.false_eq_true,
      if_false, Option.getD_some, depLineSpec]
    rw [collectLinks_links]
  · simp only [getDependencyReleaseLine, h1, if_true, h2, Bool.false_eq_true,
      if_false, Option.getD_some]
    rw [collectLinks_warnings]

/-- Changesets of the C8 witness: one resolving, one failing, one without a
commit. -/
def c8changesets : List Changeset :=
  [⟨"a", some "good", "x1", none⟩, ⟨"b", some "bad", "x2", none⟩,
   ⟨"c", none, "x3", none⟩]

/-- Dependencies of the C8 witness. -/
def c8deps : List Dependency := [⟨"pkg", "1.2.3"⟩, ⟨"left-pad", "2.0.0"⟩]

/-- Witness for C8: concrete run with a failing lookup filtered out. -/
theorem c8_dep_line_witness :
    (("o/r" : String) ≠ "") ∧ (c8deps ≠ []) ∧
    ((getDependencyReleaseLine apiC8 c8changesets c8deps
        (some ⟨some "o/r", true⟩) resetChangelogState).1 =
      .ok (depLineSpec apiC8 "o/r" c8changesets c8deps) ∧
     ((getDependencyReleaseLine apiC8 c8changesets c8deps
        (some ⟨some "o/r", true⟩) resetChangelogState).2.2).warnings =
      failWarningsSpec apiC8 "o/r" c8changesets) ∧
    depLineSpec apiC8 "o/r" c8changesets c8deps =
      "Updated dependencies [L1]:\n  - pkg@1.2.3\n  - left-pad@2.0.0" ∧
    failWarningsSpec apiC8 "o/r" c8changesets = ["Error getting commit info: down"] :=
  ⟨by decide, by decide,
   c8_dep_line apiC8 c8changesets c8deps "o/r" true resetChangelogState
     (by decide) (by decide),
   by decide, by decide⟩

/-- C1: in the three-call run (authors `alice`, `carol`, `bob`, with
`isLast` only on the third call) the accumulator is wiped at the start of
every non-last call — the guard `!opts?.isLast` around `resetChangelogState`
fires on the second call as well, not only on the first — so `alice` is
lost and the third call's credits sentence names only `bob` and `carol`;
the accumulator is empty afterwards. -/
theorem c1_reset_wipes_authors :
    (c1first.2.1).allAuthors = ["alice"] ∧
    (c1second.2.1).allAuthors = ["carol"] ∧
    c1third.1 =
      .ok "- three\n\n**Credits**\nHuge thanks to @bob and @carol for helping!" ∧
    (c1third.2.1).allAuthors = [] ∧
    strContains
      "- three\n\n**Credits**\nHuge thanks to @bob and @carol for helping!"
      "@alice" = false := by
  refine ⟨by decide, by decide, by decide, by decide, by decide⟩

/-- C4 counterexample: two renderer calls in the same process, both with
`isLast = true` and each resolving an author; the second call's result also
carries a credits block, refuting that the second such call returns no
credits block. -/
theorem c4_second_flush_counterexample :
    c4first.1 = .ok "- one\n\n**Credits**\nHuge thanks to @u1 for helping!" ∧
    c4second.1 = .ok "- two\n\n**Credits**\nHuge thanks to @u2 for helping!" ∧
    strContains "- two\n\n**Credits**\nHuge thanks to @u2 for helping!"
      "**Credits**" = true := by
  refine ⟨by decide, by decide, by decide⟩

/-- C4 (amended): the credits composer invoked a second time before a reset
returns the empty string (the `hasAddedCredits` guard); but the renderer's
flush resets the flag together with the accumulator, so the flag is false
again after every renderer call that starts with it false, and a later
`isLast` call can flush afresh for the authors accumulated after the first
flush. -/
theorem c4_flag_semantics :
    (∀ st : ChangelogState, st.hasAddedCredits = true →
      (getCreditsSection st).1 = "") ∧
    (∀ (api : HostAPI) (cs : Changeset) (type : String) (opts : Option Options)
      (st : ChangelogState), st.hasAddedCredits = false →
      ((wrappedGetReleaseLine api cs type opts st).2.1).hasAddedCredits = false) := by
  constructor
  · intro st h
    unfold getCreditsSection
    rw [h]
    split
    · rfl
    · rfl
  · intro api cs type opts st h
    have h0 : (if optIsLast opts then st else resetChangelogState).hasAddedCredits
        = false := by
      split
      · exact h
      · rfl
    have hfl := getReleaseLine_hasAddedCredits api cs type opts
      (if optIsLast opts then st else resetChangelogState)
    rcases hg : getReleaseLine api cs type opts
        (if optIsLast opts then st else resetChangelogState) with ⟨r, st1, tr⟩
    rw [hg] at hfl
    simp only at hfl
    simp only [wrappedGetReleaseLine, hg]
    cases r with
    | error e => simpa using hfl.trans h0
    | ok result =>
      simp only []
      repeat' split
      all_goals first
      | rfl
      | simpa using hfl.trans h0

/-- Witness for C4: the composer on a flagged state, and the flag after a
renderer call starting unflagged. -/
theorem c4_flag_semantics_witness :
    ((⟨["x"], [], true⟩ : ChangelogState).hasAddedCredits = true ∧
      (getCreditsSection ⟨["x"], [], true⟩).1 = "") ∧
    ((⟨[], [], false⟩ : ChangelogState).hasAddedCredits = false ∧
      ((wrappedGetReleaseLine (failAPI "a" "b") ⟨"s", none, "i", none⟩ "minor"
          none ⟨[], [], false⟩).2.1).hasAddedCredits = false) :=
  ⟨⟨rfl, c4_flag_semantics.1 ⟨["x"], [], true⟩ rfl⟩,
   ⟨rfl, c4_flag_semantics.2 (failAPI "a" "b") ⟨"s", none, "i", none⟩ "minor"
      none ⟨[], [], false⟩ rfl⟩⟩


/-- C2 (amended): whenever the first matched `pr`/`pull`/`pull request`
directive carries a number `n ≥ 1` and a repo is configured, the rendered
line carries the parenthetical `([#n](https://github.com/<repo>/pull/n))`
right after the headline — for every host API (resolved or rejected) and
regardless of the changeset's intrinsic commit. -/
theorem c2_pr_parenthetical (api : HostAPI) (cs : Changeset) (type repo : String)
    (il : Bool) (st : ChangelogState) (n : Nat) (hrepo : repo ≠ "")
    (hpr : (processSummary cs.summary).pr = some n) (hn : 1 ≤ n) :
    ∃ rest, (getReleaseLine api cs type (some ⟨some repo, il⟩) st).1 =
      .ok ("- " ++ (processSummary cs.summary).body.headD "" ++ " ([#" ++
        toString n ++ "](https://github.com/" ++ repo ++ "/pull/" ++
        toString n ++ "))" ++ rest) := by
  have h1 : jsTruthyStr (some repo) = true := by simp [jsTruthyStr, hrepo]
  have hn0 : n ≠ 0 := by omega
  simp only [getReleaseLine, h1, if_true, Option.getD_some, hpr,
    computePrNumber, hn0, ne_eq, not_false_eq_true, if_true, renderLine]
  split
  · exact ⟨"", by rw [String.append_empty]⟩
  · exact ⟨"\n" ++ String.intercalate "\n"
      ((processSummary cs.summary).body.tail.map (fun l => "  " ++ l)),
      by rw [String.append_assoc]⟩

/-- Witness for C2 at the directive `pr: 5` with a rejecting host API and a
differing intrinsic commit. -/
theorem c2_pr_parenthetical_witness :
    (processSummary "something\npr: 5").pr = some 5 ∧
    ∃ rest, (getReleaseLine (failAPI "a" "b")
        ⟨"something\npr: 5", some "abc", "id", none⟩ "minor"
        (some ⟨some "o/r", true⟩) resetChangelogState).1 =
      .ok ("- " ++ (processSummary "something\npr: 5").body.headD "" ++ " ([#" ++
        toString 5 ++ "](https://github.com/" ++ "o/r" ++ "/pull/" ++
        toString 5 ++ "))" ++ rest) :=
  ⟨by decide, c2_pr_parenthetical (failAPI "a" "b")
    ⟨"something\npr: 5", some "abc", "id", none⟩ "minor" "o/r" true
    resetChangelogState 5 (by decide) (by decide) (by decide)⟩

/-- C2 counterexample: the directive `pr: 0` is matched (`prFromSummary`
is set to 0), but `0` is falsy in the `prNumber` chain, so with no PR field
and a rejecting host API the rendered line carries no parenthetical at all
instead of `([#0](...))`. -/
theorem c2_zero_counterexample :
    (processSummary "something\npr: 0").pr = some 0 ∧
    getReleaseLine (failAPI "x" "y") ⟨"something\npr: 0", some "abc", "id", none⟩
        "minor" (some ⟨some "o/r", true⟩) resetChangelogState =
      (.ok "- something", resetChangelogState,
       ⟨[.pullReq "o/r" 0], ["Error getting GitHub info: x"]⟩) ∧
    strContains "- something" "([#0]" = false := by
  refine ⟨by decide, by decide, by decide⟩

/-- C3 (amended): when the host API rejects, the error is caught — the
promise still resolves — a warning is logged for the attempted lookup, the
state is unchanged, and the line renders with null links: no commit
reference at all (no plain-link fallback), the parenthetical coming only
from a `pr` directive or the changeset's own `PR` field. -/
theorem c3_catch_degrades (e₁ e₂ : String) (cs : Changeset) (type repo : String)
    (il : Bool) (st : ChangelogState) (hrepo : repo ≠ "") :
    getReleaseLine (failAPI e₁ e₂) cs type (some ⟨some repo, il⟩) st =
      (.ok (renderNoInfo repo cs.summary cs.PR), st, failTrace e₁ e₂ repo cs) := by
  have h1 : jsTruthyStr (some repo) = true := by simp [jsTruthyStr, hrepo]
  simp only [getReleaseLine, h1, if_true, Option.getD_some, renderNoInfo, failTrace]
  unfold resolveInfo
  cases hpr : (processSummary cs.summary).pr with
  | some n => simp [failAPI, hpr, nullLinks]
  | none =>
    simp only [hpr]
    split
    next hctf => simp [failAPI, nullLinks, hctf]
    next hctf => simp [nullLinks, hctf]

/-- Witness for C3: a changeset with an intrinsic commit, a rejecting API;
the rendered line has no reference and the warning is logged. -/
theorem c3_catch_degrades_witness :
    (("o/r" : String) ≠ "") ∧
    getReleaseLine (failAPI "boom" "bang")
        ⟨"fix stuff\ndetails", some "abc", "id", none⟩ "minor"
        (some ⟨some "o/r", false⟩) resetChangelogState =
      (.ok (renderNoInfo "o/r" "fix stuff\ndetails" none), resetChangelogState,
       failTrace "boom" "bang" "o/r" ⟨"fix stuff\ndetails", some "abc", "id", none⟩) ∧
    renderNoInfo "o/r" "fix stuff\ndetails" none = "- fix stuff\n  details" ∧
    failTrace "boom" "bang" "o/r" ⟨"fix stuff\ndetails", some "abc", "id", none⟩ =
      ⟨[.commitInfo "o/r" "abc"], ["Error getting GitHub info: bang"]⟩ :=
  ⟨by decide,
   c3_catch_degrades "boom" "bang" ⟨"fix stuff\ndetails", some "abc", "id", none⟩
     "minor" "o/r" false resetChangelogState (by decide),
   by decide, by decide⟩

/-- C3 counterexample: host API rejects and the changeset has intrinsic
commit `abc`; the claim's fallback reference `` [`abc`](o/r/commit/abc) ``
is absent — the line is bare (`abc` does not occur in it at all). -/
theorem c3_no_fallback_counterexample :
    getReleaseLine (failAPI "boom" "boom") ⟨"something", some "abc", "id", none⟩
        "minor" (some ⟨some "o/r", false⟩) resetChangelogState =
      (.ok "- something", resetChangelogState,
       ⟨[.commitInfo "o/r" "abc"], ["Error getting GitHub info: boom"]⟩) ∧
    strContains "- something" "abc" = false := by
  refine ⟨by decide, by decide⟩

/-- C9: when the summary strips (with no directives consumed) to exactly the
three lines `a`, `b`, `c`, and no link source exists (falsy intrinsic
commit, no PR field — the claimed output has no parenthetical, so it
presumes no link), the rendered line is `- a\n  b\n  c`: the headline on
the bullet and each subsequent line prefixed with exactly two spaces,
joined by newlines, with no host-API call and the state unchanged. -/
theorem c9_multiline_indent (api : HostAPI) (cs : Changeset) (type repo : String)
    (il : Bool) (st : ChangelogState) (a b c : String) (hrepo : repo ≠ "")
    (hex : processSummary cs.summary = ⟨none, none, [a, b, c]⟩)
    (hcommit : jsTruthyStr cs.commit = false) (hPR : cs.PR = none) :
    getReleaseLine api cs type (some ⟨some repo, il⟩) st =
      (.ok ("- " ++ a ++ "\n  " ++ b ++ "\n  " ++ c), st, emptyTrace) := by
  have h1 : jsTruthyStr (some repo) = true := by simp [jsTruthyStr, hrepo]
  have jn : jsTruthyStr none = false := rfl
  simp only [getReleaseLine, h1, if_true, Option.getD_some, hex]
  unfold resolveInfo
  simp [jsOrStr, jn, hcommit, computePrNumber, hPR, nullLinks, renderLine]
  apply String.ext
  simp [String.intercalate, String.intercalate.go, String.data_append]

/-- Witness for C9 at the spec's own example summary. -/
theorem c9_multiline_indent_witness :
    processSummary "headline\ndetail one\ndetail two" =
      ⟨none, none, ["headline", "detail one", "detail two"]⟩ ∧
    getReleaseLine (failAPI "x" "y")
        ⟨"headline\ndetail one\ndetail two", none, "id", none⟩ "minor"
        (some ⟨some "o/r", false⟩) resetChangelogState =
      (.ok ("- " ++ "headline" ++ "\n  " ++ "detail one" ++ "\n  " ++ "detail two"),
       resetChangelogState, emptyTrace) :=
  ⟨by decide,
   c9_multiline_indent (failAPI "x" "y")
     ⟨"headline\ndetail one\ndetail two", none, "id", none⟩ "minor" "o/r" false
     resetChangelogState "headline" "detail one" "detail two"
     (by decide) (by decide) (by decide) (by decide)⟩

/-- C5: the code has no ticket handling at all, though the repository's own
test file expects it.  At the test's input the `ticket:` line stays in the
rendered body as an indented continuation line and no
`[PRO-142](<url>)` link is appended to the parenthetical. -/
theorem c5_ticket_not_extracted :
    (getReleaseLine apiMock
        ⟨"something\nticket: https://stacc-as.atlassian.net/browse/PRO-142",
         some "a085003", "some-id", none⟩ "minor"
        (some ⟨some "stacc/changeset-formatter", true⟩) resetChangelogState).1 =
      .ok "- something ([#1613](https://github.com/stacc/changeset-formatter/pull/1613))\n  ticket: https://stacc-as.atlassian.net/browse/PRO-142" ∧
    strContains
      "- something ([#1613](https://github.com/stacc/changeset-formatter/pull/1613))\n  ticket: https://stacc-as.atlassian.net/browse/PRO-142"
      "[PRO-142]" = false ∧
    strContains
      "- something ([#1613](https://github.com/stacc/changeset-formatter/pull/1613))\n  ticket: https://stacc-as.atlassian.net/browse/PRO-142"
      "\n  ticket:" = true := by
  refine ⟨by decide, by decide, by decide⟩

/-- C6: the code has no `author:`/`user:` directive handling, though the
repository's own test file expects it.  At the test's input the directive
line stays in the rendered body, `other` is never added to the author
accumulator — only the API-resolved `Gawdfrey` is. -/
theorem c6_author_not_extracted :
    getReleaseLine apiMock ⟨"something\nauthor: @other", some "a085003",
        "some-id", none⟩ "minor"
        (some ⟨some "stacc/changeset-formatter", true⟩) resetChangelogState =
      (.ok "- something ([#1613](https://github.com/stacc/changeset-formatter/pull/1613))\n  author: @other",
       ⟨["Gawdfrey"], [], false⟩,
       ⟨[.commitInfo "stacc/changeset-formatter" "a085003"], []⟩) ∧
    "other" ∉ (["Gawdfrey"] : List String) ∧
    strContains
      "- something ([#1613](https://github.com/stacc/changeset-formatter/pull/1613))\n  author: @other"
      "author: @other" = true := by
  refine ⟨by decide, by decide, by decide⟩
